import Mathlib

/-!
Shallow embedding of `parl/remote/job.py` (class `Job`).

The job process is modelled as a state machine driven by an explicit list of
events.  Each event is one atomic interaction of the process with the outside
world: a message returned by a blocking `recv_multipart` on the reply socket,
a heartbeat probe or a receive timeout on one of the heartbeat sockets, or the
master's acknowledgement of a `RESET_JOB` announcement.  The three heartbeat
responder threads are represented by their liveness state plus the shared
flags they write (`job_is_alive`, `worker_is_alive`, `client_is_alive`); the
session driver (the main thread running `Job.run`) is represented by a program
counter.  After each event the driver greedily runs all its internal,
non-blocking steps (loop-condition checks, the teardown sequence of `run`) to
the next blocking point; this `settle` pass realises one legal interleaving
of the Python threads for the internal steps, while the event list itself
carries the interleaving of the externally visible ones.

Machine details that the claims do not touch (zmq contexts, cloudpickle
payloads, logging) are dropped; message payloads are carried abstractly.
Addresses are modelled by their port number (the host IP is fixed for the
process); `zmq.bind_to_random_port` is modelled as drawing a fresh port from a
counter, and `tempfile.mkdtemp` as drawing a fresh directory name.
-/

/-- Modelled from the spec (§6): the message tags of `parl.remote.remote_constants`,
which is not among the sources; tags are opaque tokens compared by equality. -/
inductive Tag
  | NORMAL
  | SEND_FILE
  | INIT_OBJECT
  | CALL
  | KILLJOB
  | HEARTBEAT
  | RESET_JOB
  | EXCEPTION
  | ATTRIBUTE_EXCEPTION
  | SERIALIZE_EXCEPTION
  | DESERIALIZE_EXCEPTION
  deriving DecidableEq, Repr

/-- An outgoing multipart frame on the reply socket: the tag plus the
remaining parts (payload bytes, carried abstractly as strings). -/
structure Frame where
  tag : Tag
  parts : List String
  deriving DecidableEq, Repr

/-- The result of dispatching one `CALL` in `Job.single_task`: the body of the
`try` block (`loads_argument`, `getattr`, the user call, `dumps_return`) either
produces a serialized return value or raises, and `job.py` classifies the
exception by exact type (`type(e) == ...`).  The outcome is an input of the
model because the user code and the codec are external to `job.py`. -/
inductive CallOutcome
  | ok (ret : String)
  | attributeError (msg : String)
  | serializeError (msg : String)
  | deserializeError (msg : String)
  | otherError (msg : String) (tb : String)
  deriving DecidableEq, Repr

/-- A message received on the reply socket, already dispatched on its tag.
`initObject none` is an `INIT_OBJECT` whose constructor call succeeds;
`initObject (some (msg, tb))` is one whose constructor raises with message
`msg` and formatted traceback `tb`.  `other` stands for a message whose tag is
none of the four protocol tags (`SEND_FILE`, `INIT_OBJECT`, `CALL`,
`KILLJOB`). -/
inductive InMsg
  | sendFile (files : List (String × String))
  | initObject (ctorFail : Option (String × String))
  | call (o : CallOutcome)
  | killJob
  | other
  deriving DecidableEq, Repr

/-- One entry of the request-endpoint log: a request consumed by a
`recv_multipart` of the session driver, or a reply frame it sent. -/
inductive LogEntry
  | req (m : InMsg)
  | rep (f : Frame)
  deriving DecidableEq, Repr

/-- Modelled from the spec (§3): `InitializedJob` of `parl.remote.message`,
which is not among the sources — a record of the job's addresses, the owning
worker's address and the pid, every field nullable. -/
structure InitializedJob where
  job_address : Option Nat
  worker_heartbeat_address : Option Nat
  client_heartbeat_address : Option Nat
  ping_heartbeat_address : Option Nat
  worker_address : Option Nat
  pid : Option Nat
  deriving DecidableEq, Repr

/-- Liveness of a responder thread object. -/
inductive ThreadSt
  | notStarted
  | running
  | exitedT
  deriving DecidableEq, Repr

/-- The session driver's blocking points inside `Job.run` (plus the transient
positions resolved by `settle`):
`atRunLoopHead` — about to test `while self.job_is_alive` (line 254);
`recvFiles` — blocked in the recv of `wait_for_files` (line 191);
`recvConnection` — blocked in the recv of `wait_for_connection` (line 220);
`atTaskLoopHead` — about to test `while self.job_is_alive and self.client_is_alive` (line 307);
`recvTask` — blocked in the recv of `single_task` (line 308);
`atSessionEnd` — a session just ended (normal exit of `single_task` or an
exception caught by the `except` of `run`), about to run the reset code;
`joinClient` — blocked in `self.client_thread.join()` (line 275);
`waitMasterAck` — sent `RESET_JOB`, blocked in `master_socket.recv_multipart()` (line 293);
`exited` — `run` returned;
`crashed` — an exception escaped `run` (it is raised outside the `try`). -/
inductive Pc
  | atRunLoopHead
  | recvFiles
  | recvConnection
  | atTaskLoopHead
  | recvTask
  | atSessionEnd
  | joinClient
  | waitMasterAck
  | exited
  | crashed
  deriving DecidableEq, Repr

/-- One atomic external interaction.  `reqMsg m` models a blocking
`recv_multipart` of the session driver on the reply socket returning `m`
(a no-op when the driver is not blocked in such a recv — the message would
stay queued and is simply not delivered in this run); `workerTimeout` /
`clientTimeout` model `zmq.error.Again` in the corresponding heartbeat
responder; the probes model a heartbeat request being received and answered;
`masterAck` models the master's reply to `RESET_JOB`. -/
inductive Event
  | reqMsg (m : InMsg)
  | workerTimeout
  | workerProbe
  | clientTimeout
  | clientProbe
  | pingProbe
  | masterAck
  deriving DecidableEq, Repr

def Event.isReq : Event → Bool
  | .reqMsg _ => true
  | _ => false

/-- The whole job process: the shared flags, the three responder threads
(ping omitted: it has no observable state beyond replying), the driver's
position, the Python-level bindings `sys.path` and `previous_path`, the
addresses, the fresh-port and fresh-tmpdir counters, and the logs of the
reply socket and of the master socket. -/
structure JobState where
  job_is_alive : Bool
  worker_is_alive : Bool
  client_is_alive : Bool
  workerThreadLive : Bool
  clientThread : ThreadSt
  pc : Pc
  sys_path : List String
  saved_path : List String
  job_address : Nat
  ping_heartbeat_address : Nat
  worker_heartbeat_address : Nat
  client_heartbeat_address : Nat
  nextPort : Nat
  nextTmp : Nat
  replyLog : List LogEntry
  masterLog : List (Tag × InitializedJob)
  deriving DecidableEq, Repr

/-- Model of `tempfile.mkdtemp()`: a fresh scratch directory name. -/
def tmpName (n : Nat) : String := "/tmp/parl_env" ++ toString n

/-- Whether `open(os.path.join(envdir, name), 'wb')` fails for a fresh, empty
`envdir`: the key names an intermediate directory that `wait_for_files` never
creates (or is empty, so the joined path names the directory itself). -/
def openFails (name : String) : Bool := name.toList.contains '/' || name = ""

/-- The file-writing loop of `Job.wait_for_files` (lines 196-200): write each
`filename → bytes` entry of the bundle under the fresh scratch directory, in
order.  Returns the writes performed, or the first key whose `open` raises. -/
def materialize : List (String × String) → Except String (List (String × String))
  | [] => .ok []
  | (k, v) :: rest =>
    if openFails k then .error k
    else
      match materialize rest with
      | .ok ws => .ok ((k, v) :: ws)
      | .error e => .error e

/-- Step of `Job.wait_for_files` consuming one message (lines 190-207), fused with the
three lines of `run` that follow its return (lines 257-259):
`previous_path = sys.path` binds `previous_path` to the *same list object* as
`sys.path`, and `sys.path.append(envdir)` mutates that shared object — so in
value terms both names now hold the old path with `envdir` appended.  Then
`self.client_thread.start()` starts the client-heartbeat responder, whose
first action (line 146) sets `client_is_alive = True`.
On a non-`SEND_FILE` tag, `wait_for_files` logs and raises
`NotImplementedError`; the call sits *outside* the `try` of `run` (line 256 vs
line 261), so the exception escapes `run` and the process crashes.  A failing
file write (key with an intermediate directory) likewise escapes. -/
def wait_for_files_recv (s : JobState) (m : InMsg) : JobState :=
  match m with
  | .sendFile files =>
    let envdir := tmpName s.nextTmp
    match materialize files with
    | .ok _ =>
      let newPath := s.sys_path ++ [envdir]
      { s with
        nextTmp := s.nextTmp + 1
        sys_path := newPath
        saved_path := newPath
        clientThread := .running
        client_is_alive := true
        replyLog := s.replyLog ++ [.req m, .rep ⟨.NORMAL, []⟩]
        pc := .recvConnection }
    | .error _ =>
      { s with nextTmp := s.nextTmp + 1
               replyLog := s.replyLog ++ [.req m]
               pc := .crashed }
  | _ => { s with replyLog := s.replyLog ++ [.req m], pc := .crashed }

/-- Step of `Job.wait_for_connection` consuming one message (lines 220-249), fused
with the `assert obj is not None` of `run` (line 263).  On `INIT_OBJECT` with
a succeeding constructor: reply `NORMAL`, proceed to `single_task`.  On a
raising constructor: reply `EXCEPTION` with message and traceback, set
`client_is_alive = False`, return `None` — the assert then fails and is
caught by the `except` of `run`, so the session ends.  On any other tag:
reply `EXCEPTION` with the fixed text and raise `NotImplementedError`, which
is caught by the `except` of `run` (the call is inside the `try`). -/
def wait_for_connection_recv (s : JobState) (m : InMsg) : JobState :=
  match m with
  | .initObject none =>
    { s with replyLog := s.replyLog ++ [.req m, .rep ⟨.NORMAL, []⟩]
             pc := .atTaskLoopHead }
  | .initObject (some (err, tb)) =>
    { s with replyLog := s.replyLog ++
               [.req m, .rep ⟨.EXCEPTION, [err ++ "\ntraceback:\n" ++ tb]⟩]
             client_is_alive := false
             pc := .atSessionEnd }
  | _ =>
    { s with replyLog := s.replyLog ++
               [.req m, .rep ⟨.EXCEPTION,
                 ["[job]Unkonwn tag when tried to receive the class definition"]⟩]
             pc := .atSessionEnd }

/-- The reply frame sent by the `except` arms of the `CALL` branch of
`Job.single_task` (lines 323-355), and by the success path (lines 320-321). -/
def callReplyFrame : CallOutcome → Frame
  | .ok ret => ⟨.NORMAL, [ret]⟩
  | .attributeError msg => ⟨.ATTRIBUTE_EXCEPTION, [msg]⟩
  | .serializeError msg => ⟨.SERIALIZE_EXCEPTION, [msg]⟩
  | .deserializeError msg => ⟨.DESERIALIZE_EXCEPTION, [msg]⟩
  | .otherError msg tb => ⟨.EXCEPTION, [msg ++ "\ntraceback:\n" ++ tb]⟩

/-- Step of `Job.single_task` consuming one message (lines 308-365).  A `CALL` always
sends exactly one reply — `NORMAL` with the encoded return, or the classified
exception frame with `client_is_alive` set to `False` — then returns to the
loop head.  `KILLJOB` replies `NORMAL` and sets `client_is_alive = False`.
Any other tag logs and raises `NotImplementedError` without a reply; the
exception is caught by the `except` of `run`, ending the session. -/
def single_task_recv (s : JobState) (m : InMsg) : JobState :=
  match m with
  | .call o =>
    match o with
    | .ok ret =>
      { s with replyLog := s.replyLog ++ [.req m, .rep ⟨.NORMAL, [ret]⟩]
               pc := .atTaskLoopHead }
    | _ =>
      { s with client_is_alive := false
               replyLog := s.replyLog ++ [.req m, .rep (callReplyFrame o)]
               pc := .atTaskLoopHead }
  | .killJob =>
    { s with replyLog := s.replyLog ++ [.req m, .rep ⟨.NORMAL, []⟩]
             client_is_alive := false
             pc := .atTaskLoopHead }
  | _ => { s with replyLog := s.replyLog ++ [.req m], pc := .atSessionEnd }

/-- The reset tail of `Job.run` after `client_thread.join()` returns
(lines 276-293): bind a fresh client-heartbeat endpoint
(`_create_heartbeat_server`, a fresh port), construct the new (not yet
started) responder thread, build the `InitializedJob` with
`worker_heartbeat_address=None`, `worker_address=None`, `pid=None`
(keyword arguments at lines 282-288), send it under `RESET_JOB_TAG` on the
master socket, and block awaiting the master's reply. -/
def run_reset (s : JobState) : JobState :=
  let newAddr := s.nextPort
  { s with
    client_heartbeat_address := newAddr
    nextPort := s.nextPort + 1
    clientThread := .notStarted
    masterLog := s.masterLog ++
      [(Tag.RESET_JOB,
        { job_address := some s.job_address
          worker_heartbeat_address := none
          client_heartbeat_address := some newAddr
          ping_heartbeat_address := some s.ping_heartbeat_address
          worker_address := none
          pid := none })]
    pc := .waitMasterAck }

/-- The two loop-condition tests of the driver: `while self.job_is_alive`
(line 254: enter `wait_for_files` or return from `run`) and
`while self.job_is_alive and self.client_is_alive` (line 307: block in the
recv of `single_task` or fall through to the reset code). -/
def checkLoops (s : JobState) : JobState :=
  match s.pc with
  | .atRunLoopHead =>
    if s.job_is_alive then { s with pc := .recvFiles } else { s with pc := .exited }
  | .atTaskLoopHead =>
    if s.job_is_alive && s.client_is_alive then { s with pc := .recvTask }
    else { s with pc := .atSessionEnd }
  | _ => s

/-- The first reset step of `run` (line 273): `sys.path = previous_path`
rebinds `sys.path` to the object `previous_path` refers to — the very list
that was appended to, see `wait_for_files_recv` — then block in
`client_thread.join()`. -/
def startTeardown (s : JobState) : JobState :=
  match s.pc with
  | .atSessionEnd => { s with sys_path := s.saved_path, pc := .joinClient }
  | _ => s

/-- The join `client_thread.join()` (line 275) returns as soon as the client-heartbeat
responder thread is no longer running; the driver then runs the reset tail. -/
def tryJoin (s : JobState) : JobState :=
  match s.pc with
  | .joinClient => if s.clientThread = .running then s else run_reset s
  | _ => s

/-- Run the driver's internal, non-blocking steps to the next blocking point. -/
def settle (s : JobState) : JobState :=
  tryJoin (startTeardown (checkLoops s))

/-- Dispatch one external event.  The heartbeat responder loops
(`_reply_worker_heartbeat`, lines 159-176; `_reply_client_heartbeat`,
lines 140-157): a timeout (`zmq.error.Again`) makes the responder clear its
flags and exit; a probe is answered, after which the loop condition is
re-tested, so a responder whose flag is already cleared exits.  The ping
responder (`_reply_ping`) answers probes and touches no shared state. -/
def handleEvent (s : JobState) : Event → JobState
  | .reqMsg m =>
    match s.pc with
    | .recvFiles => wait_for_files_recv s m
    | .recvConnection => wait_for_connection_recv s m
    | .recvTask => single_task_recv s m
    | _ => s
  | .workerTimeout =>
    if s.workerThreadLive then
      { s with worker_is_alive := false, job_is_alive := false, workerThreadLive := false }
    else s
  | .workerProbe =>
    if s.workerThreadLive then
      if s.worker_is_alive && s.job_is_alive then s else { s with workerThreadLive := false }
    else s
  | .clientTimeout =>
    if s.clientThread = .running then
      { s with client_is_alive := false, clientThread := .exitedT }
    else s
  | .clientProbe =>
    if s.clientThread = .running && !s.client_is_alive then
      { s with clientThread := .exitedT }
    else s
  | .pingProbe => s
  | .masterAck =>
    match s.pc with
    | .waitMasterAck => { s with pc := .atRunLoopHead }
    | _ => s

/-- One observable step of the process: the event, then the driver's internal
steps up to its next blocking point. -/
def stepE (s : JobState) (e : Event) : JobState :=
  settle (handleEvent s e)

/-- The state after `Job.__init__` and the prologue of `run`
(`_create_sockets`, lines 55-117, plus the three responder threads started
there): `job_is_alive = True` (line 50, the only assignment of `True` to it),
the worker responder's first action sets `worker_is_alive = True` (line 165),
the client responder thread is constructed but not started (line 104), and
the four endpoints are bound in source order — reply socket, ping heartbeat,
worker heartbeat, client heartbeat — to fresh ports.  `p0` is the initial
`sys.path` of the interpreter.  `client_is_alive` is not assigned before the
client thread first runs; it is represented as `false`, and no code reads it
before `client_thread.start()`. -/
def initState (p0 : List String) : JobState :=
  { job_is_alive := true
    worker_is_alive := true
    client_is_alive := false
    workerThreadLive := true
    clientThread := .notStarted
    pc := .atRunLoopHead
    sys_path := p0
    saved_path := p0
    job_address := 1
    ping_heartbeat_address := 2
    worker_heartbeat_address := 3
    client_heartbeat_address := 4
    nextPort := 5
    nextTmp := 0
    replyLog := []
    masterLog := [] }

/-- The whole run of the job process on a list of external events. -/
def runJob (p0 : List String) (events : List Event) : JobState :=
  events.foldl stepE (settle (initState p0))

/-! ### Request/reply pairing on the request endpoint -/

def isCall : InMsg → Bool
  | .call _ => true
  | _ => false

/-- Scanner state for checking strict pairing of `CALL` requests:
`idle` — no pending `CALL`; `awaitRep` — a `CALL` was received and its reply
is still due; `closed` — the reply to a `CALL` was just sent, so the next
entry must be a request (a second reply would break the pairing). -/
inductive ScanSt
  | idle
  | awaitRep
  | closed
  deriving DecidableEq, Repr

/-- One scanner transition; `none` marks a pairing violation: a request
processed while a `CALL` reply was still due, or a second reply to a `CALL`. -/
def scanStep : ScanSt → LogEntry → Option ScanSt
  | .idle, .req m => some (if isCall m then .awaitRep else .idle)
  | .idle, .rep _ => some .idle
  | .awaitRep, .rep _ => some .closed
  | .awaitRep, .req _ => none
  | .closed, .req m => some (if isCall m then .awaitRep else .idle)
  | .closed, .rep _ => none

def scan : ScanSt → List LogEntry → Option ScanSt
  | st, [] => some st
  | st, e :: l =>
    match scanStep st e with
    | some st2 => scan st2 l
    | none => none

/-- The request-endpoint log honors strict pairing of `CALL` requests: every
`CALL` that is followed by any later processed request got exactly one reply
first. -/
def callsPaired (l : List LogEntry) : Bool :=
  (scan .idle l).isSome

theorem scan_append (c l : List LogEntry) :
    ∀ st, scan st (l ++ c) = (scan st l).bind (fun st2 => scan st2 c) := by
  induction l with
  | nil => intro st; rfl
  | cons e l ih =>
    intro st
    cases h : scanStep st e <;> simp [scan, h, ih]

/-- Invariant: the reply-socket log scans cleanly, and the scanner can rest
mid-`CALL` only when the process has crashed (a `CALL`-tagged message received
in `wait_for_files` is logged and then `NotImplementedError` escapes `run`, so
nothing is ever appended afterwards). -/
def PairInv (s : JobState) : Prop :=
  ∃ st, scan .idle s.replyLog = some st ∧
    (st = .idle ∨ st = .closed ∨ s.pc = .crashed)

theorem checkLoops_replyLog (s : JobState) : (checkLoops s).replyLog = s.replyLog := by
  unfold checkLoops
  split <;> first | rfl | (split <;> rfl)

theorem checkLoops_of_crashed (s : JobState) (h : s.pc = .crashed) : checkLoops s = s := by
  unfold checkLoops
  rw [h]

theorem startTeardown_replyLog (s : JobState) : (startTeardown s).replyLog = s.replyLog := by
  unfold startTeardown
  split <;> rfl

theorem startTeardown_of_crashed (s : JobState) (h : s.pc = .crashed) : startTeardown s = s := by
  unfold startTeardown
  rw [h]

theorem tryJoin_replyLog (s : JobState) : (tryJoin s).replyLog = s.replyLog := by
  unfold tryJoin
  split
  · split <;> rfl
  · rfl

theorem tryJoin_of_crashed (s : JobState) (h : s.pc = .crashed) : tryJoin s = s := by
  unfold tryJoin
  rw [h]

theorem pairInv_checkLoops (s : JobState) (h : PairInv s) : PairInv (checkLoops s) := by
  obtain ⟨st, hscan, hdis⟩ := h
  rcases hdis with h1 | h2 | h3
  · exact ⟨st, by rw [checkLoops_replyLog]; exact hscan, Or.inl h1⟩
  · exact ⟨st, by rw [checkLoops_replyLog]; exact hscan, Or.inr (Or.inl h2)⟩
  · rw [checkLoops_of_crashed s h3]
    exact ⟨st, hscan, Or.inr (Or.inr h3)⟩

theorem pairInv_startTeardown (s : JobState) (h : PairInv s) : PairInv (startTeardown s) := by
  obtain ⟨st, hscan, hdis⟩ := h
  rcases hdis with h1 | h2 | h3
  · exact ⟨st, by rw [startTeardown_replyLog]; exact hscan, Or.inl h1⟩
  · exact ⟨st, by rw [startTeardown_replyLog]; exact hscan, Or.inr (Or.inl h2)⟩
  · rw [startTeardown_of_crashed s h3]
    exact ⟨st, hscan, Or.inr (Or.inr h3)⟩

theorem pairInv_tryJoin (s : JobState) (h : PairInv s) : PairInv (tryJoin s) := by
  obtain ⟨st, hscan, hdis⟩ := h
  rcases hdis with h1 | h2 | h3
  · exact ⟨st, by rw [tryJoin_replyLog]; exact hscan, Or.inl h1⟩
  · exact ⟨st, by rw [tryJoin_replyLog]; exact hscan, Or.inr (Or.inl h2)⟩
  · rw [tryJoin_of_crashed s h3]
    exact ⟨st, hscan, Or.inr (Or.inr h3)⟩

theorem scan_req_rep (st : ScanSt) (hst : st = .idle ∨ st = .closed) (m : InMsg) (f : Frame) :
    scan st [.req m, .rep f] = some (if isCall m then .closed else .idle) := by
  rcases hst with rfl | rfl <;> cases hc : isCall m <;> simp [scan, scanStep, hc]

theorem scan_req_only (st : ScanSt) (hst : st = .idle ∨ st = .closed) (m : InMsg) :
    scan st [.req m] = some (if isCall m then .awaitRep else .idle) := by
  rcases hst with rfl | rfl <;> cases hc : isCall m <;> simp [scan, scanStep, hc]

theorem pairInv_of_chunk (s s' : JobState) (st : ScanSt)
    (hscan : scan .idle s.replyLog = some st) (hst : st = .idle ∨ st = .closed)
    (c : List LogEntry) (hlog : s'.replyLog = s.replyLog ++ c)
    (hc : ∃ st1, scan st c = some st1 ∧ (st1 = .idle ∨ st1 = .closed ∨ s'.pc = .crashed)) :
    PairInv s' := by
  obtain ⟨st1, h1, h2⟩ := hc
  refine ⟨st1, ?_, h2⟩
  rw [hlog, scan_append, hscan]
  exact h1

theorem pairInv_of_same (s s' : JobState) (hlog : s'.replyLog = s.replyLog)
    (hpc : s'.pc = s.pc) (h : PairInv s) : PairInv s' := by
  obtain ⟨st, h1, h2⟩ := h
  refine ⟨st, ?_, ?_⟩
  · rw [hlog]; exact h1
  · rw [hpc]; exact h2

theorem pairInv_wait_for_files_recv (s : JobState) (m : InMsg) (st : ScanSt)
    (hscan : scan .idle s.replyLog = some st) (hst : st = .idle ∨ st = .closed) :
    PairInv (wait_for_files_recv s m) := by
  cases m with
  | sendFile files =>
    cases hm : materialize files with
    | ok ws =>
      exact pairInv_of_chunk s _ st hscan hst
        [.req (.sendFile files), .rep ⟨.NORMAL, []⟩]
        (by simp [wait_for_files_recv, hm])
        ⟨.idle, by rw [scan_req_rep st hst]; simp [isCall], Or.inl rfl⟩
    | error k =>
      exact pairInv_of_chunk s _ st hscan hst [.req (.sendFile files)]
        (by simp [wait_for_files_recv, hm])
        ⟨.idle, by rw [scan_req_only st hst]; simp [isCall], Or.inl rfl⟩
  | initObject cf =>
    exact pairInv_of_chunk s _ st hscan hst [.req (.initObject cf)]
      (by simp [wait_for_files_recv])
      ⟨.idle, by rw [scan_req_only st hst]; simp [isCall], Or.inl rfl⟩
  | call o =>
    exact pairInv_of_chunk s _ st hscan hst [.req (.call o)]
      (by simp [wait_for_files_recv])
      ⟨.awaitRep, by rw [scan_req_only st hst]; simp [isCall],
        Or.inr (Or.inr (by simp [wait_for_files_recv]))⟩
  | killJob =>
    exact pairInv_of_chunk s _ st hscan hst [.req .killJob]
      (by simp [wait_for_files_recv])
      ⟨.idle, by rw [scan_req_only st hst]; simp [isCall], Or.inl rfl⟩
  | other =>
    exact pairInv_of_chunk s _ st hscan hst [.req .other]
      (by simp [wait_for_files_recv])
      ⟨.idle, by rw [scan_req_only st hst]; simp [isCall], Or.inl rfl⟩

theorem pairInv_wait_for_connection_recv (s : JobState) (m : InMsg) (st : ScanSt)
    (hscan : scan .idle s.replyLog = some st) (hst : st = .idle ∨ st = .closed) :
    PairInv (wait_for_connection_recv s m) := by
  cases m with
  | initObject cf =>
    cases cf with
    | none =>
      exact pairInv_of_chunk s _ st hscan hst
        [.req (.initObject none), .rep ⟨.NORMAL, []⟩]
        (by simp [wait_for_connection_recv])
        ⟨.idle, by rw [scan_req_rep st hst]; simp [isCall], Or.inl rfl⟩
    | some p =>
      exact pairInv_of_chunk s _ st hscan hst
        [.req (.initObject (some p)),
         .rep ⟨.EXCEPTION, [p.1 ++ "\ntraceback:\n" ++ p.2]⟩]
        (by cases p; simp [wait_for_connection_recv])
        ⟨.idle, by rw [scan_req_rep st hst]; simp [isCall], Or.inl rfl⟩
  | sendFile files =>
    exact pairInv_of_chunk s _ st hscan hst
      [.req (.sendFile files),
       .rep ⟨.EXCEPTION, ["[job]Unkonwn tag when tried to receive the class definition"]⟩]
      (by simp [wait_for_connection_recv])
      ⟨.idle, by rw [scan_req_rep st hst]; simp [isCall], Or.inl rfl⟩
  | call o =>
    exact pairInv_of_chunk s _ st hscan hst
      [.req (.call o),
       .rep ⟨.EXCEPTION, ["[job]Unkonwn tag when tried to receive the class definition"]⟩]
      (by simp [wait_for_connection_recv])
      ⟨.closed, by rw [scan_req_rep st hst]; simp [isCall], Or.inr (Or.inl rfl)⟩
  | killJob =>
    exact pairInv_of_chunk s _ st hscan hst
      [.req .killJob,
       .rep ⟨.EXCEPTION, ["[job]Unkonwn tag when tried to receive the class definition"]⟩]
      (by simp [wait_for_connection_recv])
      ⟨.idle, by rw [scan_req_rep st hst]; simp [isCall], Or.inl rfl⟩
  | other =>
    exact pairInv_of_chunk s _ st hscan hst
      [.req .other,
       .rep ⟨.EXCEPTION, ["[job]Unkonwn tag when tried to receive the class definition"]⟩]
      (by simp [wait_for_connection_recv])
      ⟨.idle, by rw [scan_req_rep st hst]; simp [isCall], Or.inl rfl⟩

theorem pairInv_single_task_recv (s : JobState) (m : InMsg) (st : ScanSt)
    (hscan : scan .idle s.replyLog = some st) (hst : st = .idle ∨ st = .closed) :
    PairInv (single_task_recv s m) := by
  cases m with
  | call o =>
    cases o with
    | ok ret =>
      exact pairInv_of_chunk s _ st hscan hst
        [.req (.call (.ok ret)), .rep ⟨.NORMAL, [ret]⟩]
        (by simp [single_task_recv])
        ⟨.closed, by rw [scan_req_rep st hst]; simp [isCall], Or.inr (Or.inl rfl)⟩
    | attributeError msg =>
      exact pairInv_of_chunk s _ st hscan hst
        [.req (.call (.attributeError msg)), .rep (callReplyFrame (.attributeError msg))]
        (by simp [single_task_recv])
        ⟨.closed, by rw [scan_req_rep st hst]; simp [isCall], Or.inr (Or.inl rfl)⟩
    | serializeError msg =>
      exact pairInv_of_chunk s _ st hscan hst
        [.req (.call (.serializeError msg)), .rep (callReplyFrame (.serializeError msg))]
        (by simp [single_task_recv])
        ⟨.closed, by rw [scan_req_rep st hst]; simp [isCall], Or.inr (Or.inl rfl)⟩
    | deserializeError msg =>
      exact pairInv_of_chunk s _ st hscan hst
        [.req (.call (.deserializeError msg)), .rep (callReplyFrame (.deserializeError msg))]
        (by simp [single_task_recv])
        ⟨.closed, by rw [scan_req_rep st hst]; simp [isCall], Or.inr (Or.inl rfl)⟩
    | otherError msg tb =>
      exact pairInv_of_chunk s _ st hscan hst
        [.req (.call (.otherError msg tb)), .rep (callReplyFrame (.otherError msg tb))]
        (by simp [single_task_recv])
        ⟨.closed, by rw [scan_req_rep st hst]; simp [isCall], Or.inr (Or.inl rfl)⟩
  | killJob =>
    exact pairInv_of_chunk s _ st hscan hst
      [.req .killJob, .rep ⟨.NORMAL, []⟩]
      (by simp [single_task_recv])
      ⟨.idle, by rw [scan_req_rep st hst]; simp [isCall], Or.inl rfl⟩
  | sendFile files =>
    exact pairInv_of_chunk s _ st hscan hst [.req (.sendFile files)]
      (by simp [single_task_recv])
      ⟨.idle, by rw [scan_req_only st hst]; simp [isCall], Or.inl rfl⟩
  | initObject cf =>
    exact pairInv_of_chunk s _ st hscan hst [.req (.initObject cf)]
      (by simp [single_task_recv])
      ⟨.idle, by rw [scan_req_only st hst]; simp [isCall], Or.inl rfl⟩
  | other =>
    exact pairInv_of_chunk s _ st hscan hst [.req .other]
      (by simp [single_task_recv])
      ⟨.idle, by rw [scan_req_only st hst]; simp [isCall], Or.inl rfl⟩

theorem pairInv_handleEvent (s : JobState) (e : Event) (h : PairInv s) :
    PairInv (handleEvent s e) := by
  obtain ⟨st, hscan, hdis⟩ := h
  cases e with
  | reqMsg m =>
    cases hpc : s.pc
    case recvFiles =>
      have hst : st = .idle ∨ st = .closed := by
        rcases hdis with h1 | h2 | h3
        · exact Or.inl h1
        · exact Or.inr h2
        · rw [hpc] at h3; cases h3
      have he : handleEvent s (.reqMsg m) = wait_for_files_recv s m := by
        simp [handleEvent, hpc]
      rw [he]
      exact pairInv_wait_for_files_recv s m st hscan hst
    case recvConnection =>
      have hst : st = .idle ∨ st = .closed := by
        rcases hdis with h1 | h2 | h3
        · exact Or.inl h1
        · exact Or.inr h2
        · rw [hpc] at h3; cases h3
      have he : handleEvent s (.reqMsg m) = wait_for_connection_recv s m := by
        simp [handleEvent, hpc]
      rw [he]
      exact pairInv_wait_for_connection_recv s m st hscan hst
    case recvTask =>
      have hst : st = .idle ∨ st = .closed := by
        rcases hdis with h1 | h2 | h3
        · exact Or.inl h1
        · exact Or.inr h2
        · rw [hpc] at h3; cases h3
      have he : handleEvent s (.reqMsg m) = single_task_recv s m := by
        simp [handleEvent, hpc]
      rw [he]
      exact pairInv_single_task_recv s m st hscan hst
    all_goals
      refine pairInv_of_same s _ ?_ ?_ ⟨st, hscan, hdis⟩ <;> simp [handleEvent, hpc]
  | workerTimeout =>
    refine pairInv_of_same s _ ?_ ?_ ⟨st, hscan, hdis⟩ <;>
      (simp only [handleEvent]; split <;> rfl)
  | workerProbe =>
    refine pairInv_of_same s _ ?_ ?_ ⟨st, hscan, hdis⟩ <;>
      (simp only [handleEvent]; split <;> first | rfl | (split <;> rfl))
  | clientTimeout =>
    refine pairInv_of_same s _ ?_ ?_ ⟨st, hscan, hdis⟩ <;>
      (simp only [handleEvent]; split <;> rfl)
  | clientProbe =>
    refine pairInv_of_same s _ ?_ ?_ ⟨st, hscan, hdis⟩ <;>
      (simp only [handleEvent]; split <;> rfl)
  | pingProbe =>
    exact pairInv_of_same s _ rfl rfl ⟨st, hscan, hdis⟩
  | masterAck =>
    cases hpc : s.pc
    case waitMasterAck =>
      have hst : st = .idle ∨ st = .closed := by
        rcases hdis with h1 | h2 | h3
        · exact Or.inl h1
        · exact Or.inr h2
        · rw [hpc] at h3; cases h3
      refine ⟨st, ?_, ?_⟩
      · simp [handleEvent, hpc]; exact hscan
      · rcases hst with h1 | h2
        · exact Or.inl h1
        · exact Or.inr (Or.inl h2)
    all_goals
      refine pairInv_of_same s _ ?_ ?_ ⟨st, hscan, hdis⟩ <;> simp [handleEvent, hpc]

theorem pairInv_stepE (s : JobState) (e : Event) (h : PairInv s) : PairInv (stepE s e) :=
  pairInv_tryJoin _ (pairInv_startTeardown _ (pairInv_checkLoops _ (pairInv_handleEvent s e h)))

theorem pairInv_foldl (es : List Event) : ∀ s, PairInv s → PairInv (es.foldl stepE s) := by
  induction es with
  | nil => exact fun s h => h
  | cons e es ih => exact fun s h => ih _ (pairInv_stepE s e h)

theorem pairInv_runJob (p0 : List String) (events : List Event) :
    PairInv (runJob p0 events) :=
  pairInv_foldl events _ ⟨.idle, rfl, Or.inl rfl⟩

/-- C5: for every message with tag `CALL` received on the request endpoint,
exactly one reply is sent on the request endpoint before the job receives or
processes any subsequent request: in every run the request-endpoint log
passes the strict-pairing scanner, and the scanner can end on a still
unanswered `CALL` only when the process crashed right after logging it (a
`CALL`-tagged message arriving in `wait_for_files` kills the process), so no
later request is ever received. -/
theorem call_request_reply_pairing (p0 : List String) (events : List Event) :
    callsPaired (runJob p0 events).replyLog = true ∧
    (scan .idle (runJob p0 events).replyLog = some .awaitRep →
      (runJob p0 events).pc = .crashed) := by
  obtain ⟨st, hscan, hdis⟩ := pairInv_runJob p0 events
  constructor
  · simp [callsPaired, hscan]
  · intro haw
    rw [hscan] at haw
    cases haw
    rcases hdis with h1 | h2 | h3
    · cases h1
    · cases h2
    · exact h3

theorem call_request_reply_pairing_witness :
    callsPaired (runJob ["lib"] [.reqMsg (.call (.ok "r"))]).replyLog = true ∧
    (scan .idle (runJob ["lib"] [.reqMsg (.call (.ok "r"))]).replyLog = some .awaitRep) ∧
    (runJob ["lib"] [.reqMsg (.call (.ok "r"))]).pc = .crashed := by
  have h := call_request_reply_pairing ["lib"] [.reqMsg (.call (.ok "r"))]
  exact ⟨h.1, by decide, h.2 (by decide)⟩

/-! ### Frame lemmas: fields the individual steps never write -/

theorem wait_for_files_recv_frame (s : JobState) (m : InMsg) :
    (wait_for_files_recv s m).job_is_alive = s.job_is_alive ∧
    (wait_for_files_recv s m).masterLog = s.masterLog ∧
    (wait_for_files_recv s m).job_address = s.job_address ∧
    (wait_for_files_recv s m).ping_heartbeat_address = s.ping_heartbeat_address ∧
    (wait_for_files_recv s m).client_heartbeat_address = s.client_heartbeat_address ∧
    (wait_for_files_recv s m).nextPort = s.nextPort := by
  cases m <;> (try (rename_i x; cases hm : materialize x)) <;> simp [wait_for_files_recv, *]

theorem wait_for_connection_recv_frame (s : JobState) (m : InMsg) :
    (wait_for_connection_recv s m).job_is_alive = s.job_is_alive ∧
    (wait_for_connection_recv s m).masterLog = s.masterLog ∧
    (wait_for_connection_recv s m).job_address = s.job_address ∧
    (wait_for_connection_recv s m).ping_heartbeat_address = s.ping_heartbeat_address ∧
    (wait_for_connection_recv s m).client_heartbeat_address = s.client_heartbeat_address ∧
    (wait_for_connection_recv s m).nextPort = s.nextPort := by
  cases m
  case initObject cf =>
    cases cf with
    | none => simp [wait_for_connection_recv]
    | some p => obtain ⟨a, b⟩ := p; simp [wait_for_connection_recv]
  all_goals simp [wait_for_connection_recv]

theorem single_task_recv_frame (s : JobState) (m : InMsg) :
    (single_task_recv s m).job_is_alive = s.job_is_alive ∧
    (single_task_recv s m).masterLog = s.masterLog ∧
    (single_task_recv s m).job_address = s.job_address ∧
    (single_task_recv s m).ping_heartbeat_address = s.ping_heartbeat_address ∧
    (single_task_recv s m).client_heartbeat_address = s.client_heartbeat_address ∧
    (single_task_recv s m).nextPort = s.nextPort := by
  cases m
  case call o => cases o <;> simp [single_task_recv, callReplyFrame]
  all_goals simp [single_task_recv]

theorem handleEvent_job_false (s : JobState) (e : Event) (h : s.job_is_alive = false) :
    (handleEvent s e).job_is_alive = false := by
  cases e with
  | reqMsg m =>
    cases hpc : s.pc <;> simp [handleEvent, hpc] <;> try exact h
    · exact (wait_for_files_recv_frame s m).1.trans h
    · exact (wait_for_connection_recv_frame s m).1.trans h
    · exact (single_task_recv_frame s m).1.trans h
  | workerTimeout =>
    simp only [handleEvent]; split <;> simp [h]
  | workerProbe =>
    simp only [handleEvent]; split <;> first | exact h | (split <;> exact h)
  | clientTimeout =>
    simp only [handleEvent]; split <;> exact h
  | clientProbe =>
    simp only [handleEvent]; split <;> exact h
  | pingProbe => exact h
  | masterAck =>
    cases hpc : s.pc <;> simp [handleEvent, hpc] <;> exact h

theorem checkLoops_job (s : JobState) : (checkLoops s).job_is_alive = s.job_is_alive := by
  unfold checkLoops; split <;> first | rfl | (split <;> rfl)

theorem startTeardown_job (s : JobState) :
    (startTeardown s).job_is_alive = s.job_is_alive := by
  unfold startTeardown; split <;> rfl

theorem tryJoin_job (s : JobState) : (tryJoin s).job_is_alive = s.job_is_alive := by
  unfold tryJoin; split
  · split <;> rfl
  · rfl

theorem settle_job (s : JobState) : (settle s).job_is_alive = s.job_is_alive := by
  unfold settle
  rw [tryJoin_job, startTeardown_job, checkLoops_job]

/-- C9: `job_is_alive` is monotonically non-increasing: it is `True` at the
end of `Job.__init__` (its one and only `True` assignment, line 50), and no
step of the process ever turns it back to `true` — every later write (the
worker-heartbeat timeout, line 175) sets it to `false`. -/
theorem job_is_alive_monotone (p0 : List String) (s : JobState) (e : Event) :
    (initState p0).job_is_alive = true ∧ (stepE s e).job_is_alive ≤ s.job_is_alive := by
  refine ⟨rfl, ?_⟩
  cases hb : s.job_is_alive
  · have : (stepE s e).job_is_alive = false := by
      unfold stepE
      rw [settle_job]
      exact handleEvent_job_false s e hb
    simp [this]
  · exact Bool.le_true _

/-! ### Addresses carried by the reset announcements -/

/-- Whether `l` is strictly increasing, starting strictly above `a`. -/
def strictFrom : Nat → List Nat → Bool
  | _, [] => true
  | a, x :: l => decide (a < x) && strictFrom x l

/-- The last element of `l`, or `a` when `l` is empty. -/
def lastD : Nat → List Nat → Nat
  | a, [] => a
  | _, x :: l => lastD x l

/-- The client-heartbeat addresses announced to the master, in send order. -/
def resetAddrs (s : JobState) : List Nat :=
  s.masterLog.map (fun e => (e.2.client_heartbeat_address).getD 0)

/-- The fixed fields of a `RESET_JOB` announcement: the tag, the nulled
`worker_heartbeat_address` / `worker_address` / `pid`, and the startup request
and ping addresses. -/
def resetEntryOk (jaddr paddr : Nat) (e : Tag × InitializedJob) : Bool :=
  decide (e.1 = Tag.RESET_JOB) &&
  decide (e.2.worker_heartbeat_address = none) &&
  decide (e.2.worker_address = none) &&
  decide (e.2.pid = none) &&
  decide (e.2.job_address = some jaddr) &&
  decide (e.2.ping_heartbeat_address = some paddr)

theorem strictFrom_append (l : List Nat) :
    ∀ a x, strictFrom a (l ++ [x]) = (strictFrom a l && decide (lastD a l < x)) := by
  induction l with
  | nil => intro a x; simp [strictFrom, lastD]
  | cons y l ih => intro a x; simp [strictFrom, lastD, ih, Bool.and_assoc]

theorem lastD_append (l : List Nat) : ∀ a x, lastD a (l ++ [x]) = x := by
  induction l with
  | nil => intro a x; rfl
  | cons y l ih => intro a x; simp [lastD, ih]

/-- Invariant tying the announced addresses to the endpoint state: the request
and ping addresses keep their startup values, the current client-heartbeat
address is below the port counter, and the announced client-heartbeat
addresses rise strictly from the startup one and end at the current one. -/
def AddrInv (s : JobState) : Prop :=
  s.job_address = 1 ∧
  s.ping_heartbeat_address = 2 ∧
  s.client_heartbeat_address < s.nextPort ∧
  strictFrom 4 (resetAddrs s) = true ∧
  lastD 4 (resetAddrs s) = s.client_heartbeat_address ∧
  s.masterLog.all (resetEntryOk 1 2) = true

theorem addrInv_of_fields (s s' : JobState)
    (h1 : s'.masterLog = s.masterLog) (h2 : s'.job_address = s.job_address)
    (h3 : s'.ping_heartbeat_address = s.ping_heartbeat_address)
    (h4 : s'.client_heartbeat_address = s.client_heartbeat_address)
    (h5 : s'.nextPort = s.nextPort) (h : AddrInv s) : AddrInv s' := by
  unfold AddrInv resetAddrs
  rw [h1, h2, h3, h4, h5]
  exact h

theorem handleEvent_addr_frame (s : JobState) (e : Event) :
    (handleEvent s e).masterLog = s.masterLog ∧
    (handleEvent s e).job_address = s.job_address ∧
    (handleEvent s e).ping_heartbeat_address = s.ping_heartbeat_address ∧
    (handleEvent s e).client_heartbeat_address = s.client_heartbeat_address ∧
    (handleEvent s e).nextPort = s.nextPort := by
  cases e with
  | reqMsg m =>
    cases hpc : s.pc <;> simp [handleEvent, hpc]
    · obtain ⟨-, h2, h3, h4, h5, h6⟩ := wait_for_files_recv_frame s m
      exact ⟨h2, h3, h4, h5, h6⟩
    · obtain ⟨-, h2, h3, h4, h5, h6⟩ := wait_for_connection_recv_frame s m
      exact ⟨h2, h3, h4, h5, h6⟩
    · obtain ⟨-, h2, h3, h4, h5, h6⟩ := single_task_recv_frame s m
      exact ⟨h2, h3, h4, h5, h6⟩
  | workerTimeout => simp only [handleEvent]; split_ifs <;> simp
  | workerProbe => simp only [handleEvent]; split_ifs <;> simp
  | clientTimeout => simp only [handleEvent]; split_ifs <;> simp
  | clientProbe => simp only [handleEvent]; split_ifs <;> simp
  | pingProbe => exact ⟨rfl, rfl, rfl, rfl, rfl⟩
  | masterAck => cases hpc : s.pc <;> simp [handleEvent, hpc]

theorem checkLoops_eq (s : JobState) : ∃ p, checkLoops s = { s with pc := p } := by
  unfold checkLoops
  split
  · split
    · exact ⟨.recvFiles, rfl⟩
    · exact ⟨.exited, rfl⟩
  · split
    · exact ⟨.recvTask, rfl⟩
    · exact ⟨.atSessionEnd, rfl⟩
  · exact ⟨s.pc, rfl⟩

theorem startTeardown_eq (s : JobState) :
    ∃ p sp, startTeardown s = { s with pc := p, sys_path := sp } := by
  unfold startTeardown
  split
  · exact ⟨.joinClient, s.saved_path, rfl⟩
  · exact ⟨s.pc, s.sys_path, rfl⟩

theorem addrInv_checkLoops (s : JobState) (h : AddrInv s) : AddrInv (checkLoops s) := by
  obtain ⟨p, hp⟩ := checkLoops_eq s
  rw [hp]
  exact addrInv_of_fields s _ rfl rfl rfl rfl rfl h

theorem addrInv_startTeardown (s : JobState) (h : AddrInv s) : AddrInv (startTeardown s) := by
  obtain ⟨p, sp, hp⟩ := startTeardown_eq s
  rw [hp]
  exact addrInv_of_fields s _ rfl rfl rfl rfl rfl h

theorem addrInv_run_reset (s : JobState) (h : AddrInv s) : AddrInv (run_reset s) := by
  obtain ⟨h1, h2, h3, h4, h5, h6⟩ := h
  refine ⟨h1, h2, Nat.lt_succ_self _, ?_, ?_, ?_⟩
  · have : resetAddrs (run_reset s) = resetAddrs s ++ [s.nextPort] := by
      simp [resetAddrs, run_reset]
    rw [this, strictFrom_append, h4, h5]
    simp [h3]
  · have : resetAddrs (run_reset s) = resetAddrs s ++ [s.nextPort] := by
      simp [resetAddrs, run_reset]
    rw [this, lastD_append]
    rfl
  · simp only [run_reset, List.all_append]
    rw [h6]
    simp [resetEntryOk, h1, h2]

theorem addrInv_tryJoin (s : JobState) (h : AddrInv s) : AddrInv (tryJoin s) := by
  unfold tryJoin
  split
  · split
    · exact h
    · exact addrInv_run_reset s h
  · exact h

theorem addrInv_stepE (s : JobState) (e : Event) (h : AddrInv s) : AddrInv (stepE s e) := by
  unfold stepE settle
  apply addrInv_tryJoin
  apply addrInv_startTeardown
  apply addrInv_checkLoops
  obtain ⟨h1, h2, h3, h4, h5⟩ := handleEvent_addr_frame s e
  exact addrInv_of_fields s _ h1 h2 h3 h4 h5 h

theorem addrInv_foldl (es : List Event) : ∀ s, AddrInv s → AddrInv (es.foldl stepE s) := by
  induction es with
  | nil => exact fun s h => h
  | cons e es ih => exact fun s h => ih _ (addrInv_stepE s e h)

theorem addrInv_runJob (p0 : List String) (events : List Event) :
    AddrInv (runJob p0 events) := by
  unfold runJob
  refine addrInv_foldl events _ ?_
  unfold settle
  apply addrInv_tryJoin
  apply addrInv_startTeardown
  apply addrInv_checkLoops
  exact ⟨rfl, rfl, Nat.lt_succ_self 4, rfl, rfl, rfl⟩

/-- C6: every `RESET_JOB` announcement carries an `InitializedJob` whose
`worker_heartbeat_address`, `worker_address` and `pid` are null, whose request
and ping addresses equal the startup ones (the ping endpoint is never
rebound), and whose client-heartbeat address is freshly bound — the announced
client-heartbeat addresses rise strictly from the startup one, so each one
differs from the previous session's. -/
theorem reset_announcement_contents (p0 : List String) (events : List Event) :
    (runJob p0 events).masterLog.all
      (resetEntryOk (initState p0).job_address (initState p0).ping_heartbeat_address) = true ∧
    (runJob p0 events).ping_heartbeat_address = (initState p0).ping_heartbeat_address ∧
    (runJob p0 events).job_address = (initState p0).job_address ∧
    strictFrom (initState p0).client_heartbeat_address (resetAddrs (runJob p0 events)) = true := by
  obtain ⟨h1, h2, h3, h4, h5, h6⟩ := addrInv_runJob p0 events
  exact ⟨h6, h2, h1, h4⟩

/-! ### Per-claim theorems -/

def CallOutcome.isOk : CallOutcome → Bool
  | .ok _ => true
  | _ => false

def isSendFileMsg : InMsg → Bool
  | .sendFile _ => true
  | _ => false

/-- The two tags `single_task` knows how to serve. -/
def servedTaskTag : InMsg → Bool
  | .call _ => true
  | .killJob => true
  | _ => false

/-- C4: a `CALL` dispatch that raises is classified by exception type —
`AttributeError` to `ATTRIBUTE_EXCEPTION` with the message, `SerializeError`
to `SERIALIZE_EXCEPTION`, `DeserializeError` to `DESERIALIZE_EXCEPTION`,
anything else to `EXCEPTION` with message plus formatted traceback — and in
every such case `client_is_alive` is set to `false`, exactly one reply is
sent, and the driver leaves the serve-calls state (it proceeds to the
teardown, blocked joining the client-heartbeat thread). -/
theorem call_exception_classified (s : JobState) (o : CallOutcome)
    (hpc : s.pc = .recvTask) (hth : s.clientThread = .running)
    (hok : o.isOk = false) :
    (stepE s (.reqMsg (.call o))).client_is_alive = false ∧
    (stepE s (.reqMsg (.call o))).replyLog =
      s.replyLog ++ [.req (.call o),
        .rep (match o with
          | .ok ret => ⟨.NORMAL, [ret]⟩
          | .attributeError msg => ⟨.ATTRIBUTE_EXCEPTION, [msg]⟩
          | .serializeError msg => ⟨.SERIALIZE_EXCEPTION, [msg]⟩
          | .deserializeError msg => ⟨.DESERIALIZE_EXCEPTION, [msg]⟩
          | .otherError msg tb => ⟨.EXCEPTION, [msg ++ "\ntraceback:\n" ++ tb]⟩)] ∧
    (stepE s (.reqMsg (.call o))).pc = .joinClient := by
  cases o with
  | ok ret => simp [CallOutcome.isOk] at hok
  | attributeError msg =>
    refine ⟨?_, ?_, ?_⟩ <;>
      simp [stepE, handleEvent, hpc, single_task_recv, callReplyFrame, settle,
        checkLoops, startTeardown, tryJoin, hth]
  | serializeError msg =>
    refine ⟨?_, ?_, ?_⟩ <;>
      simp [stepE, handleEvent, hpc, single_task_recv, callReplyFrame, settle,
        checkLoops, startTeardown, tryJoin, hth]
  | deserializeError msg =>
    refine ⟨?_, ?_, ?_⟩ <;>
      simp [stepE, handleEvent, hpc, single_task_recv, callReplyFrame, settle,
        checkLoops, startTeardown, tryJoin, hth]
  | otherError msg tb =>
    refine ⟨?_, ?_, ?_⟩ <;>
      simp [stepE, handleEvent, hpc, single_task_recv, callReplyFrame, settle,
        checkLoops, startTeardown, tryJoin, hth]

theorem call_exception_classified_witness :
    (stepE (runJob ["lib"] [.reqMsg (.sendFile []), .reqMsg (.initObject none)])
        (.reqMsg (.call (.attributeError "no attr")))).client_is_alive = false ∧
    (stepE (runJob ["lib"] [.reqMsg (.sendFile []), .reqMsg (.initObject none)])
        (.reqMsg (.call (.attributeError "no attr")))).pc = .joinClient := by
  have h := call_exception_classified
    (runJob ["lib"] [.reqMsg (.sendFile []), .reqMsg (.initObject none)])
    (.attributeError "no attr") (by decide) (by decide) (by decide)
  exact ⟨h.1, h.2.2⟩

/-- C10: in the serve-calls state, a request whose tag is neither `CALL` nor
`KILLJOB` fails the session with no reply for that request: the log gains the
bare request, the master channel is untouched, and the driver moves into the
teardown that precedes the reset. -/
theorem serve_calls_unknown_tag_unpaired (s : JobState) (m : InMsg)
    (hpc : s.pc = .recvTask) (hth : s.clientThread = .running)
    (hm : servedTaskTag m = false) :
    (stepE s (.reqMsg m)).replyLog = s.replyLog ++ [.req m] ∧
    (stepE s (.reqMsg m)).masterLog = s.masterLog ∧
    (stepE s (.reqMsg m)).pc = .joinClient := by
  cases m with
  | call o => simp [servedTaskTag] at hm
  | killJob => simp [servedTaskTag] at hm
  | sendFile files =>
    refine ⟨?_, ?_, ?_⟩ <;>
      simp [stepE, handleEvent, hpc, single_task_recv, settle, checkLoops,
        startTeardown, tryJoin, hth]
  | initObject cf =>
    refine ⟨?_, ?_, ?_⟩ <;>
      simp [stepE, handleEvent, hpc, single_task_recv, settle, checkLoops,
        startTeardown, tryJoin, hth]
  | other =>
    refine ⟨?_, ?_, ?_⟩ <;>
      simp [stepE, handleEvent, hpc, single_task_recv, settle, checkLoops,
        startTeardown, tryJoin, hth]

theorem serve_calls_unknown_tag_unpaired_witness :
    (stepE (runJob ["lib"] [.reqMsg (.sendFile []), .reqMsg (.initObject none)])
        (.reqMsg .other)).replyLog =
      (runJob ["lib"] [.reqMsg (.sendFile []), .reqMsg (.initObject none)]).replyLog
        ++ [.req .other] ∧
    (stepE (runJob ["lib"] [.reqMsg (.sendFile []), .reqMsg (.initObject none)])
        (.reqMsg .other)).pc = .joinClient := by
  have h := serve_calls_unknown_tag_unpaired
    (runJob ["lib"] [.reqMsg (.sendFile []), .reqMsg (.initObject none)])
    .other (by decide) (by decide) (by decide)
  exact ⟨h.1, h.2.2⟩

/-- C3 counterexample: the very first message of a session carrying a tag
other than `SEND_FILE` (here: `KILLJOB`) does not reset the job — the
`NotImplementedError` raised by `wait_for_files` is outside the `try` of
`run`, so the process crashes, and no `RESET_JOB` is ever sent. -/
theorem first_message_violation_no_reset :
    (runJob ["lib"] [.reqMsg .killJob]).pc = .crashed ∧
    (runJob ["lib"] [.reqMsg .killJob]).masterLog = [] ∧
    (runJob ["lib"] [.reqMsg .killJob]).replyLog = [.req .killJob] := by
  decide

/-- C3 amended: a first message of a session with a tag other than
`SEND_FILE` is logged and makes `wait_for_files` raise; because that call is
outside the session error handler of `run`, the exception escapes the run
loop and the process terminates — no reply is sent for the message, no reset
happens, and no `RESET_JOB` is sent. -/
theorem wait_for_files_violation_fatal (s : JobState) (m : InMsg)
    (hpc : s.pc = .recvFiles) (hm : isSendFileMsg m = false) :
    (stepE s (.reqMsg m)).pc = .crashed ∧
    (stepE s (.reqMsg m)).replyLog = s.replyLog ++ [.req m] ∧
    (stepE s (.reqMsg m)).masterLog = s.masterLog := by
  cases m with
  | sendFile files => simp [isSendFileMsg] at hm
  | initObject cf =>
    refine ⟨?_, ?_, ?_⟩ <;>
      simp [stepE, handleEvent, hpc, wait_for_files_recv, settle, checkLoops,
        startTeardown, tryJoin]
  | call o =>
    refine ⟨?_, ?_, ?_⟩ <;>
      simp [stepE, handleEvent, hpc, wait_for_files_recv, settle, checkLoops,
        startTeardown, tryJoin]
  | killJob =>
    refine ⟨?_, ?_, ?_⟩ <;>
      simp [stepE, handleEvent, hpc, wait_for_files_recv, settle, checkLoops,
        startTeardown, tryJoin]
  | other =>
    refine ⟨?_, ?_, ?_⟩ <;>
      simp [stepE, handleEvent, hpc, wait_for_files_recv, settle, checkLoops,
        startTeardown, tryJoin]

theorem wait_for_files_violation_fatal_witness :
    (runJob ["lib"] []).pc = .recvFiles ∧ isSendFileMsg .other = false ∧
    (stepE (runJob ["lib"] []) (.reqMsg .other)).pc = .crashed := by
  have h := wait_for_files_violation_fatal (runJob ["lib"] []) .other
    (by decide) (by decide)
  exact ⟨by decide, by decide, h.1⟩

/-- C7 counterexample: on an accepted `SEND_FILE` the scratch directory ends
up *after* all existing entries of the module search path, not before them —
`run` does `sys.path.append(envdir)`, not a prepend — so existing same-named
modules shadow the bundle, not the other way around. -/
theorem scratch_dir_not_prepended :
    (runJob ["lib"] [.reqMsg (.sendFile [])]).sys_path = ["lib", tmpName 0] ∧
    (runJob ["lib"] [.reqMsg (.sendFile [])]).sys_path.head? ≠ some (tmpName 0) := by
  decide

/-- C7 amended: when a `SEND_FILE` message is accepted, the scratch directory
is *appended* to the module search path (placed after all existing entries),
so same-named modules already on the path shadow the ones in the bundle. -/
theorem send_file_appends_scratch_dir (s : JobState) (files : List (String × String))
    (hpc : s.pc = .recvFiles) (hm : materialize files = .ok files) :
    (stepE s (.reqMsg (.sendFile files))).sys_path = s.sys_path ++ [tmpName s.nextTmp] := by
  simp [stepE, handleEvent, hpc, wait_for_files_recv, hm, settle, checkLoops,
    startTeardown, tryJoin]

theorem send_file_appends_scratch_dir_witness :
    (runJob ["lib"] []).pc = .recvFiles ∧
    materialize [("u.py", "x")] = .ok [("u.py", "x")] ∧
    (stepE (runJob ["lib"] []) (.reqMsg (.sendFile [("u.py", "x")]))).sys_path =
      (runJob ["lib"] []).sys_path ++ [tmpName (runJob ["lib"] []).nextTmp] := by
  refine ⟨by decide, by rfl, ?_⟩
  exact send_file_appends_scratch_dir (runJob ["lib"] []) [("u.py", "x")]
    (by decide) (by rfl)

/-- C8 counterexample: a bundle whose key contains a path separator does not
materialize — `wait_for_files` never creates intermediate directories, the
`open` raises, and (the loop being outside the `try` of `run`) the process
crashes on such a bundle instead of succeeding. -/
theorem materialize_nested_key_fails :
    materialize [("pkg/mod.py", "x")] = .error "pkg/mod.py" ∧
    (runJob ["lib"] [.reqMsg (.sendFile [("pkg/mod.py", "x")])]).pc = .crashed := by
  constructor
  · rfl
  · decide

/-- C8 amended: the loader writes each `filename → bytes` entry directly
under the fresh scratch directory, treating keys as flat names; a bundle all
of whose keys are plain (nonempty, no path separator) materializes
successfully, entry for entry, while a key naming an intermediate directory
makes the write fail. -/
theorem materialize_flat_keys_ok (files : List (String × String))
    (h : files.all (fun kv => !openFails kv.1) = true) :
    materialize files = .ok files := by
  induction files with
  | nil => rfl
  | cons kv rest ih =>
    simp only [List.all_cons, Bool.and_eq_true, Bool.not_eq_true'] at h
    simp [materialize, h.1, ih (by simpa using h.2)]

theorem materialize_flat_keys_ok_witness :
    ([("u.py", "x"), ("v.py", "y")].all (fun kv => !openFails kv.1) = true) ∧
    materialize [("u.py", "x"), ("v.py", "y")] = .ok [("u.py", "x"), ("v.py", "y")] :=
  ⟨by decide, materialize_flat_keys_ok _ (by decide)⟩

/-- C2 (code bug): after a full session and its reset, the scratch directory
is still on the module search path.  `previous_path = sys.path` aliases the
live list, `sys.path.append(envdir)` mutates it through both names, and the
"restore" `sys.path = previous_path` is therefore a no-op: in this run the
job is back at `wait_for_files` for the next session with
`sys.path = ["lib", scratch]`, not the pre-session `["lib"]`. -/
theorem reset_leaves_scratch_dir_on_path :
    (runJob ["lib"] [.reqMsg (.sendFile []), .reqMsg (.initObject none),
        .reqMsg .killJob, .clientTimeout, .masterAck]).pc = .recvFiles ∧
    (runJob ["lib"] [.reqMsg (.sendFile []), .reqMsg (.initObject none),
        .reqMsg .killJob, .clientTimeout, .masterAck]).sys_path = ["lib", tmpName 0] ∧
    (["lib", tmpName 0] : List String) ≠ ["lib"] := by
  decide

/-- C1 counterexample: a run in which the worker heartbeat times out
mid-session.  `single_task`'s loop exits at its next condition check, but the
reset code of `run` still executes: one `RESET_JOB` is sent to the master
before the run loop exits.  So worker loss does not preclude a `RESET_JOB`,
and a `RESET_JOB` is sent even though the session ended by worker loss. -/
theorem worker_loss_still_sends_reset :
    (Event.workerTimeout ∈ ([.reqMsg (.sendFile []), .reqMsg (.initObject none),
        .workerTimeout, .reqMsg (.call (.ok "r")), .clientTimeout, .masterAck] : List Event)) ∧
    (runJob ["lib"] [.reqMsg (.sendFile []), .reqMsg (.initObject none),
        .workerTimeout, .reqMsg (.call (.ok "r")), .clientTimeout, .masterAck]).pc = .exited ∧
    (runJob ["lib"] [.reqMsg (.sendFile []), .reqMsg (.initObject none),
        .workerTimeout, .reqMsg (.call (.ok "r")), .clientTimeout, .masterAck]).masterLog ≠ [] := by
  refine ⟨by decide, by decide, by decide⟩

theorem handleEvent_nonreq_pc (s : JobState) (e : Event) (hpc : s.pc = .recvFiles)
    (he : e.isReq = false) : (handleEvent s e).pc = .recvFiles := by
  cases e with
  | reqMsg m => simp [Event.isReq] at he
  | workerTimeout => simp only [handleEvent]; split_ifs <;> exact hpc
  | workerProbe => simp only [handleEvent]; split_ifs <;> exact hpc
  | clientTimeout => simp only [handleEvent]; split_ifs <;> exact hpc
  | clientProbe => simp only [handleEvent]; split_ifs <;> exact hpc
  | pingProbe => exact hpc
  | masterAck => simp [handleEvent, hpc]

theorem settle_of_recvFiles (s : JobState) (h : s.pc = .recvFiles) : settle s = s := by
  simp [settle, checkLoops, startTeardown, tryJoin, h]

theorem stepE_idle_frame (s : JobState) (e : Event) (hpc : s.pc = .recvFiles)
    (he : e.isReq = false) :
    (stepE s e).pc = .recvFiles ∧ (stepE s e).masterLog = s.masterLog := by
  have h1 : (handleEvent s e).pc = .recvFiles := handleEvent_nonreq_pc s e hpc he
  have h2 := (handleEvent_addr_frame s e).1
  unfold stepE
  rw [settle_of_recvFiles _ h1]
  exact ⟨h1, h2⟩

theorem foldl_idle (post : List Event) :
    ∀ s : JobState, s.pc = .recvFiles → post.all (fun e => !e.isReq) = true →
      (post.foldl stepE s).pc = .recvFiles ∧ (post.foldl stepE s).masterLog = s.masterLog := by
  induction post with
  | nil => exact fun s h _ => ⟨h, rfl⟩
  | cons e es ih =>
    intro s h hall
    simp only [List.all_cons, Bool.and_eq_true, Bool.not_eq_true'] at hall
    obtain ⟨hpc', hml'⟩ := stepE_idle_frame s e h hall.1
    obtain ⟨hpc'', hml''⟩ := ih (stepE s e) hpc' (by simpa using hall.2)
    exact ⟨hpc'', hml''.trans hml'⟩

/-- C1 amended: after worker loss the job never starts another session, but
the original claim's two guarantees fail in opposite directions.  (1) If the
worker heartbeat times out while the driver is idle, blocked waiting for a
session's first files, and no further request-endpoint message arrives, then
indeed no `RESET_JOB` is ever sent — but the process does not exit either: it
stays blocked in that receive (this theorem).  (2) If a session is in
progress when the worker is lost, its teardown still sends exactly one
`RESET_JOB` before the run loop exits (the counterexample). -/
theorem worker_loss_idle_no_reset (p0 : List String) (pre post : List Event)
    (hpc : (runJob p0 pre).pc = .recvFiles)
    (hpost : post.all (fun e => !e.isReq) = true) :
    (runJob p0 (pre ++ .workerTimeout :: post)).masterLog = (runJob p0 pre).masterLog ∧
    (runJob p0 (pre ++ .workerTimeout :: post)).pc = .recvFiles := by
  have hrw : runJob p0 (pre ++ .workerTimeout :: post) =
      post.foldl stepE (stepE (runJob p0 pre) .workerTimeout) := by
    unfold runJob
    rw [List.foldl_append]
    rfl
  obtain ⟨h1, h2⟩ := stepE_idle_frame (runJob p0 pre) .workerTimeout hpc rfl
  obtain ⟨h3, h4⟩ := foldl_idle post _ h1 hpost
  rw [hrw]
  exact ⟨h4.trans h2, h3⟩

theorem worker_loss_idle_no_reset_witness :
    (runJob ["lib"] []).pc = .recvFiles ∧
    ([Event.clientTimeout, Event.pingProbe].all (fun e => !e.isReq) = true) ∧
    (runJob ["lib"] ([] ++ .workerTimeout :: [.clientTimeout, .pingProbe])).masterLog =
      (runJob ["lib"] []).masterLog := by
  refine ⟨by decide, by decide, ?_⟩
  exact (worker_loss_idle_no_reset ["lib"] [] [.clientTimeout, .pingProbe]
    (by decide) (by decide)).1
